import Mathlib

/-!
Verification of the booking/payment consistency core of the RadioStation
repository (NestJS + Prisma/MongoDB).  The services are shallowly embedded as
pure Lean functions over an explicit database state `DB`; Prisma operations
become list lookups and updates, the `$transaction` call becomes an
all-or-nothing state update, and external effects (the Razorpay gateway call,
the HMAC-SHA256 computation from node `crypto`, and the nodemailer send) are
passed in as function parameters, since they are library calls whose bodies are
not part of the repository.  Amounts (JS `number`) are modelled as exact
rationals; `Math.round` is `jsRound` below.
-/

namespace RadioStation

/-- `SlotStatus` enum from the Prisma schema. -/
inductive SlotStatus
| AVAILABLE
| BOOKED
deriving DecidableEq, Repr

/-- `BookingStatus` enum from the Prisma schema. -/
inductive BookingStatus
| PENDING
| APPROVED
| REJECTED
deriving DecidableEq, Repr

/-- `PaymentStatus` enum from the Prisma schema. -/
inductive PaymentStatus
| PENDING
| COMPLETED
| FAILED
deriving DecidableEq, Repr

/-- `RadioStation` model (the fields used by the payment service). -/
structure StationRec where
  id : String
  stationName : String
  contactEmail : String
deriving DecidableEq, Repr

/-- `AdvertisementSlot` model from the Prisma schema. -/
structure AdvertisementSlot where
  id : String
  stationId : String
  rjId : String
  slotTime : String
  availabilityStatus : SlotStatus
  price : Rat
deriving DecidableEq, Repr

/-- `Booking` model from the Prisma schema.  The schema declares `slotId`
with an `@unique` attribute (store-level uniqueness). -/
structure Booking where
  id : String
  userId : String
  stationId : String
  rjId : String
  slotId : String
  bookingStatus : BookingStatus
deriving DecidableEq, Repr

/-- `Payment` model from the Prisma schema. -/
structure Payment where
  id : String
  bookingId : String
  userId : String
  amountInPaise : Int
  currency : String
  paymentStatus : PaymentStatus
  transactionId : String
  razorpayOrderId : Option String
  razorpayPaymentId : Option String
  razorpaySignature : Option String
deriving DecidableEq, Repr

/-- The persistent store: one table per model relevant to the core. -/
structure DB where
  stations : List StationRec
  slots : List AdvertisementSlot
  bookings : List Booking
  payments : List Payment
deriving DecidableEq, Repr

/-- A thrown `HttpException`: HTTP status code plus message. -/
structure HttpError where
  status : Nat
  message : String
deriving DecidableEq, Repr

/-- Request body of `completePayment` (Razorpay callback data). -/
structure CompleteBody where
  razorpayOrderId : String
  razorpayPaymentId : String
  razorpaySignature : String
deriving DecidableEq, Repr

/-- Success payload of `completePayment`. -/
structure CompleteResult where
  message : String
  bookingId : String
  slotId : String
deriving DecidableEq, Repr

/-- `prisma.payment.findUnique` by id (first match in the table). -/
def findPayment (db : DB) (paymentId : String) : Option Payment :=
  db.payments.find? (fun p => p.id == paymentId)

/-- Lookup of the booking included with a payment (`include: booking`). -/
def findBooking (db : DB) (bookingId : String) : Option Booking :=
  db.bookings.find? (fun b => b.id == bookingId)

/-- `prisma.advertisementSlot.findUnique` by id. -/
def findSlot (db : DB) (slotId : String) : Option AdvertisementSlot :=
  db.slots.find? (fun s => s.id == slotId)

/-- Whether a payment record with the given id exists. -/
def paymentExists (db : DB) (paymentId : String) : Bool :=
  db.payments.any (fun p => p.id == paymentId)

/-- Whether a slot record with the given id exists. -/
def slotExists (db : DB) (slotId : String) : Bool :=
  db.slots.any (fun s => s.id == slotId)

/-- The `prisma.payment.update` issued on an invalid signature: set
`paymentStatus` to FAILED on the record with the given id
(payment.service.ts lines 214-217). -/
def markPaymentFailed (db : DB) (paymentId : String) : DB :=
  { db with payments := db.payments.map (fun p =>
      if p.id = paymentId then { p with paymentStatus := PaymentStatus.FAILED } else p) }

/-- The payment-side update of the commit transaction
(payment.service.ts lines 227-234): status COMPLETED, Razorpay payment id
and signature recorded; every other field kept. -/
def paymentCommitted (p : Payment) (razorpayPaymentId razorpaySignature : String) : Payment :=
  { p with paymentStatus := PaymentStatus.COMPLETED,
           razorpayPaymentId := some razorpayPaymentId,
           razorpaySignature := some razorpaySignature }

/-- The `prisma.$transaction` of `completePayment`
(payment.service.ts lines 225-243): update the payment record selected by
`where: id = paymentId` and the slot record selected by
`where: id = slotId`, all or nothing.  Each Prisma `update` throws if its
`where` clause matches no record, which aborts the whole transaction
(`none`); otherwise both updates apply.  Note that both `where` clauses key
on the id alone: there is no condition on the current payment status. -/
def commitTransaction (db : DB) (paymentId slotId razorpayPaymentId razorpaySignature : String) :
    Option DB :=
  if paymentExists db paymentId && slotExists db slotId then
    some { db with
      payments := db.payments.map (fun p =>
        if p.id = paymentId then paymentCommitted p razorpayPaymentId razorpaySignature else p),
      slots := db.slots.map (fun s =>
        if s.id = slotId then { s with availabilityStatus := SlotStatus.BOOKED } else s) }
  else none

/-- `PaymentService.completePayment` (payment.service.ts lines 159-262).
`hm` is the HMAC-SHA256-hex computation from node `crypto`, taken as an
uninterpreted pure function of the secret and the message; the message is
the stored order id, `|`, and the supplied payment id, exactly as on line
208.  Returns the resulting store plus the HTTP outcome. -/
def completePayment (hm : String → String → String) (secret : String)
    (db : DB) (paymentId : String) (body : CompleteBody) :
    DB × Except HttpError CompleteResult :=
  if paymentId = "" ∨ body.razorpayOrderId = "" ∨ body.razorpayPaymentId = "" ∨
      body.razorpaySignature = "" then
    (db, Except.error ⟨400, "Missing required payment details for verification."⟩)
  else
    match findPayment db paymentId with
    | none => (db, Except.error ⟨404, "Payment record not found."⟩)
    | some payment =>
      match findBooking db payment.bookingId with
      | none =>
        (db, Except.error ⟨500, "Associated booking or slot not found for this payment."⟩)
      | some booking =>
        if booking.slotId = "" then
          (db, Except.error ⟨500, "Associated booking or slot not found for this payment."⟩)
        else if payment.paymentStatus = PaymentStatus.COMPLETED then
          (db, Except.ok ⟨"Payment already verified and completed.",
                          payment.bookingId, booking.slotId⟩)
        else if ¬ payment.paymentStatus = PaymentStatus.PENDING then
          (db, Except.error ⟨400, "Payment cannot be completed in its current state."⟩)
        else if ¬ payment.razorpayOrderId = some body.razorpayOrderId then
          (db, Except.error ⟨400, "Order ID mismatch."⟩)
        else
          let storedOrderId := payment.razorpayOrderId.getD "null"
          let generatedSignature := hm secret (storedOrderId ++ "|" ++ body.razorpayPaymentId)
          if ¬ generatedSignature = body.razorpaySignature then
            (markPaymentFailed db paymentId,
             Except.error ⟨400, "Invalid payment signature."⟩)
          else
            match commitTransaction db paymentId booking.slotId
                body.razorpayPaymentId body.razorpaySignature with
            | some db2 =>
              (db2, Except.ok ⟨"Payment verified successfully. Slot booked. Awaiting admin approval for booking.",
                               payment.bookingId, booking.slotId⟩)
            | none =>
              (db, Except.error ⟨500, "Payment verified, but failed to update booking or slot status in database. Please contact support immediately."⟩)

/-- Result of the gateway `orders.create` call (the fields read by the
service: `order.id`, `order.amount`, `order.currency`). -/
structure OrderResult where
  id : String
  amount : Int
  currency : String
deriving DecidableEq, Repr

/-- Success payload of `createPayment`. -/
structure CreatePaymentResult where
  paymentId : String
  orderId : String
  amount : Int
  currency : String
deriving DecidableEq, Repr

/-- JavaScript `Math.round`: round half up, i.e. the floor of `x + 1/2`. -/
def jsRound (x : Rat) : Int := (x + 1/2).floor

/-- The receipt tag of `createPayment` (payment.service.ts lines 61-62):
`rcpt_` + bookingId + `_` + random suffix, truncated to 40 characters. -/
def receiptIdFor (bookingId shortRandom : String) : String :=
  ("rcpt_" ++ bookingId ++ "_" ++ shortRandom).take 40

/-- `PaymentService.createPayment` (payment.service.ts lines 32-130).
`createOrder` is the external Razorpay order creation (amount in paise,
currency, receipt), already translated to an HTTP outcome by the catch
block of the service; `sendMail` is the nodemailer send (station name,
contact email, amount in rupees, payment id).  `newPaymentId` stands for
the store-generated id and `shortRandom` for the `crypto.randomBytes`
suffix.  The store-level uniqueness of `Payment.bookingId` and
`Payment.razorpayOrderId` (Prisma schema) is enforced at insert time and
surfaced as the P2002 branch of the catch block (HTTP 409).  A mail
failure is rethrown by the catch block as HTTP 500 after the payment row
was created, so the row is kept. -/
def createPayment
    (createOrder : Int → String → String → Except HttpError OrderResult)
    (sendMail : String → String → Rat → String → Except HttpError Unit)
    (newPaymentId shortRandom : String)
    (db : DB) (bookingId userId : String) (amountInRupees : Rat) (transactionId : String) :
    DB × Except HttpError CreatePaymentResult :=
  if amountInRupees ≤ 0 then
    (db, Except.error ⟨400, "Invalid payment amount provided."⟩)
  else
    let amountPaise := jsRound (amountInRupees * 100)
    if amountPaise ≤ 0 then
      (db, Except.error ⟨400, "Amount must be positive."⟩)
    else
      match findBooking db bookingId with
      | none => (db, Except.error ⟨404, "Booking not found."⟩)
      | some booking =>
        if ¬ booking.bookingStatus = BookingStatus.PENDING then
          (db, Except.error ⟨400, "Booking status does not allow payment."⟩)
        else
          match db.stations.find? (fun st => st.id == booking.stationId) with
          | none => (db, Except.error ⟨500, "Station relation missing for booking."⟩)
          | some station =>
            match createOrder amountPaise "INR" (receiptIdFor bookingId shortRandom) with
            | Except.error e => (db, Except.error e)
            | Except.ok order =>
              if db.payments.any (fun p =>
                  p.bookingId == bookingId || p.razorpayOrderId == some order.id) then
                (db, Except.error ⟨409, "Database constraint violation."⟩)
              else
                let payment : Payment :=
                  { id := newPaymentId, bookingId := bookingId, userId := userId,
                    amountInPaise := amountPaise, currency := order.currency,
                    paymentStatus := PaymentStatus.PENDING, transactionId := transactionId,
                    razorpayOrderId := some order.id,
                    razorpayPaymentId := none, razorpaySignature := none }
                let db2 := { db with payments := db.payments ++ [payment] }
                match sendMail station.stationName station.contactEmail
                    ((amountPaise : Rat) / 100) newPaymentId with
                | Except.error e => (db2, Except.error ⟨500, e.message⟩)
                | Except.ok _ =>
                  (db2, Except.ok ⟨newPaymentId, order.id, order.amount, order.currency⟩)

/-- The store-level invariant declared by the `@unique` attribute on
`Booking.slotId` in the Prisma schema: no two booking records reference the
same slot. -/
def bookingSlotUnique (bookings : List Booking) : Prop :=
  bookings.Pairwise (fun b1 b2 => ¬ b1.slotId = b2.slotId)

/-- Modelled from the spec: `BookingService.createBooking` — the file
`src/backend/src/booking/booking.service.ts` is not under `src/`, only its
DTO and its module wiring are.  Per spec section 4.1 the operation checks
that the slot exists and belongs to the requested station/RJ triple
(`NotFound` otherwise) and inserts a Booking with status PENDING; the
insert is rejected with `Conflict` when another booking already references
the slot, which models the store enforcing the `@unique` attribute on
`Booking.slotId` declared in the Prisma schema (src/unnamed/part_003).
The rejection test here is the store's own atomic unique-index check at
insert time, not an application-level pre-check. -/
def createBooking (newBookingId : String) (db : DB)
    (userId stationId rjId slotId : String) : DB × Except HttpError Booking :=
  if ¬ (db.slots.any (fun s => s.id == slotId && s.stationId == stationId && s.rjId == rjId)) then
    (db, Except.error ⟨404, "Slot not found."⟩)
  else if db.bookings.any (fun b => b.slotId == slotId) then
    (db, Except.error ⟨409, "Slot already has a booking."⟩)
  else
    let booking : Booking :=
      { id := newBookingId, userId := userId, stationId := stationId,
        rjId := rjId, slotId := slotId, bookingStatus := BookingStatus.PENDING }
    ({ db with bookings := db.bookings ++ [booking] }, Except.ok booking)

/-- Number of bookings referencing a slot
(`prisma.booking.count({ where: { slotId: id } })`). -/
def relatedBookingsCount (db : DB) (id : String) : Nat :=
  (db.bookings.filter (fun b => b.slotId == id)).length

/-- `AdvertisementSlotService.remove` (advertisementslot.service.ts lines
112-157): check the slot exists (404 otherwise), count bookings referencing
it, refuse with 409 if the count is positive, otherwise delete the slot
record and return it. -/
def removeSlot (db : DB) (id : String) : DB × Except HttpError AdvertisementSlot :=
  match findSlot db id with
  | none => (db, Except.error ⟨404, "Advertisement Slot not found."⟩)
  | some slot =>
    if relatedBookingsCount db id > 0 then
      (db, Except.error ⟨409, "Cannot delete this slot. It has associated bookings."⟩)
    else
      ({ db with slots := db.slots.filter (fun s => ¬ s.id = id) }, Except.ok slot)

/-- A concrete stand-in for the HMAC-SHA256-hex function, used only to
instantiate theorems on concrete inputs. -/
def hmacDemo (secret msg : String) : String := secret ++ ":" ++ msg

/-- A concrete station record. -/
def exStation : StationRec := { id := "st1", stationName := "FM One", contactEmail := "fm@x.y" }

/-- A concrete AVAILABLE slot. -/
def exSlot : AdvertisementSlot :=
  { id := "s1", stationId := "st1", rjId := "rj1", slotTime := "2025-01-01T10:00:00Z",
    availabilityStatus := SlotStatus.AVAILABLE, price := 200 }

/-- A concrete PENDING booking referencing `exSlot`. -/
def exBooking : Booking :=
  { id := "b1", userId := "u1", stationId := "st1", rjId := "rj1", slotId := "s1",
    bookingStatus := BookingStatus.PENDING }

/-- A concrete PENDING payment for `exBooking` with stored order id `oA`. -/
def exPayment : Payment :=
  { id := "p1", bookingId := "b1", userId := "u1", amountInPaise := 20000,
    currency := "INR", paymentStatus := PaymentStatus.PENDING, transactionId := "t1",
    razorpayOrderId := some "oA", razorpayPaymentId := none, razorpaySignature := none }

/-- A concrete store holding the records above. -/
def exDb : DB :=
  { stations := [exStation], slots := [exSlot], bookings := [exBooking],
    payments := [exPayment] }

/-- The callback body whose signature is correct for `exPayment` under
`hmacDemo` with secret `k`. -/
def exBodyOk : CompleteBody :=
  { razorpayOrderId := "oA", razorpayPaymentId := "rpA",
    razorpaySignature := hmacDemo "k" "oA|rpA" }

/-- A callback body with a wrong signature for `exPayment`. -/
def exBodyBadSig : CompleteBody :=
  { razorpayOrderId := "oA", razorpayPaymentId := "rpA", razorpaySignature := "forged" }

/-- A callback body whose order id differs from the stored one. -/
def exBodyWrongOrder : CompleteBody :=
  { razorpayOrderId := "oB", razorpayPaymentId := "rpA", razorpaySignature := "whatever" }

/-- A COMPLETED payment carrying the ids recorded by a first commit. -/
def exPaymentDone : Payment :=
  { exPayment with paymentStatus := PaymentStatus.COMPLETED,
                   razorpayPaymentId := some "rpFIRST",
                   razorpaySignature := some "sigFIRST" }

/-- A store in which the payment is COMPLETED and the slot BOOKED. -/
def exDbDone : DB :=
  { exDb with payments := [exPaymentDone],
              slots := [{ exSlot with availabilityStatus := SlotStatus.BOOKED }] }

/-- A store with the slot present but no booking and no payment. -/
def exDbFresh : DB :=
  { stations := [exStation], slots := [exSlot], bookings := [], payments := [] }

/-- A concrete gateway that accepts every order with a fixed response. -/
def coDemo : Int → String → String → Except HttpError OrderResult :=
  fun _ _ _ => Except.ok { id := "oNew", amount := 20000, currency := "INR" }

/-- A store right after booking creation: booking present, no payment yet. -/
def exDbNoPay : DB :=
  { stations := [exStation], slots := [exSlot], bookings := [exBooking], payments := [] }

/-- A concrete mail sender that always succeeds. -/
def mailDemo : String → String → Rat → String → Except HttpError Unit :=
  fun _ _ _ _ => Except.ok ()

/-- Whether an HTTP outcome is a success. -/
def succeeded (r : Except HttpError CompleteResult) : Bool :=
  match r with
  | Except.ok _ => true
  | Except.error _ => false

theorem find?_map_update {α : Type} (key : α → String) (g : α → α)
    (hg : ∀ a, key (g a) = key a) (pid : String) :
    ∀ (l : List α) (p : α), l.find? (fun a => key a == pid) = some p →
      (l.map (fun a => if key a = pid then g a else a)).find? (fun a => key a == pid) =
        some (g p) := by
  intro l
  induction l with
  | nil => intro p h; simp at h
  | cons a t ih =>
    intro p h
    by_cases hk : key a = pid
    · rw [List.find?_cons_of_pos (p := fun x => key x == pid) t (by simp [hk])] at h
      have h2 : a = p := by injection h
      subst h2
      rw [List.map_cons, if_pos hk]
      exact List.find?_cons_of_pos (p := fun x => key x == pid) _ (by simp [hg, hk])
    · rw [List.find?_cons_of_neg (p := fun x => key x == pid) t (by simp [hk])] at h
      rw [List.map_cons, if_neg hk]
      rw [List.find?_cons_of_neg (p := fun x => key x == pid) _ (by simp [hk])]
      exact ih p h

theorem mem_map_update_of_ne {α : Type} (key : α → String) (g : α → α)
    (pid : String) (l : List α) (q : α) (hq : q ∈ l) (hne : ¬ key q = pid) :
    q ∈ l.map (fun a => if key a = pid then g a else a) := by
  have : (fun a => if key a = pid then g a else a) q = q := by simp [hne]
  exact this ▸ List.mem_map_of_mem _ hq

theorem any_of_find? {α : Type} (pred : α → Bool) (l : List α) (p : α)
    (h : l.find? pred = some p) : l.any pred = true :=
  List.any_eq_true.mpr ⟨p, List.mem_of_find?_eq_some h, List.find?_some h⟩

theorem find?_filter_out {α : Type} (key : α → String) (pid : String) (l : List α) :
    (l.filter (fun a => ¬ key a = pid)).find? (fun a => key a == pid) = none := by
  rw [List.find?_eq_none]
  intro a ha
  have := (List.mem_filter.mp ha).2
  simp at this
  simp [this]

theorem mem_filter_out_of_ne {α : Type} (key : α → String) (pid : String)
    (l : List α) (q : α) (hq : q ∈ l) (hne : ¬ key q = pid) :
    q ∈ l.filter (fun a => ¬ key a = pid) :=
  List.mem_filter.mpr ⟨hq, by simp [hne]⟩

/-- C10: once a Payment's status is COMPLETED, `completePayment` returns
success for every supplied callback body (all three fields present): the
already-completed short-circuit runs before the order-id match and the
signature verification, so even a mismatched order id or an invalid
signature yields the success response with the stored bookingId and slotId,
and the store is returned unmodified. -/
theorem completePayment_completed_short_circuit
    (hm : String → String → String) (secret : String) (db : DB) (pid : String)
    (body : CompleteBody) (payment : Payment) (booking : Booking)
    (hpid : ¬ pid = "")
    (h1 : ¬ body.razorpayOrderId = "") (h2 : ¬ body.razorpayPaymentId = "")
    (h3 : ¬ body.razorpaySignature = "")
    (hfind : findPayment db pid = some payment)
    (hst : payment.paymentStatus = PaymentStatus.COMPLETED)
    (hbk : findBooking db payment.bookingId = some booking)
    (hsl : ¬ booking.slotId = "") :
    completePayment hm secret db pid body =
      (db, Except.ok ⟨"Payment already verified and completed.",
                      payment.bookingId, booking.slotId⟩) := by
  simp [completePayment, hfind, hbk, hpid, h1, h2, h3, hsl, hst]

/-- Witness for C10: a replayed callback with a wrong order id and a forged
signature on the completed store still succeeds and changes nothing. -/
theorem completePayment_completed_short_circuit_witness :
    completePayment hmacDemo "k" exDbDone "p1" exBodyWrongOrder =
      (exDbDone, Except.ok ⟨"Payment already verified and completed.", "b1", "s1"⟩) := by
  have h := completePayment_completed_short_circuit hmacDemo "k" exDbDone "p1"
    exBodyWrongOrder exPaymentDone exBooking
    (by decide) (by decide) (by decide) (by decide)
    (by decide) (by decide) (by decide) (by decide)
  exact h

/-- C8 counterexample: on a PENDING payment whose stored order id is `oA`,
a callback supplying order id `oB` fails with HTTP status 400 (message
"Order ID mismatch."), not with the 409 Conflict status the claim asserts;
the store is returned unchanged. -/
theorem completePayment_order_mismatch_is_400_not_409 :
    completePayment hmacDemo "k" exDb "p1" exBodyWrongOrder =
      (exDb, Except.error ⟨400, "Order ID mismatch."⟩) ∧ ¬ (400 : Nat) = 409 := by
  constructor
  · rfl
  · decide

/-- C8 amended: `completePayment` on a PENDING payment whose stored
externalOrderId differs from the supplied one fails with HTTP 400
BAD_REQUEST ("Order ID mismatch.") — a 400-class error, not the 409
Conflict family — and leaves the whole store (Payment, Slot, Booking)
unchanged. -/
theorem completePayment_order_mismatch
    (hm : String → String → String) (secret : String) (db : DB) (pid : String)
    (body : CompleteBody) (payment : Payment) (booking : Booking)
    (hpid : ¬ pid = "")
    (h1 : ¬ body.razorpayOrderId = "") (h2 : ¬ body.razorpayPaymentId = "")
    (h3 : ¬ body.razorpaySignature = "")
    (hfind : findPayment db pid = some payment)
    (hPend : payment.paymentStatus = PaymentStatus.PENDING)
    (hbk : findBooking db payment.bookingId = some booking)
    (hsl : ¬ booking.slotId = "")
    (hord : ¬ payment.razorpayOrderId = some body.razorpayOrderId) :
    completePayment hm secret db pid body =
      (db, Except.error ⟨400, "Order ID mismatch."⟩) := by
  simp [completePayment, hfind, hbk, hpid, h1, h2, h3, hsl, hPend, hord]

/-- Witness for the amended C8 on the concrete store. -/
theorem completePayment_order_mismatch_witness :
    completePayment hmacDemo "s" exDb "p1" exBodyWrongOrder =
      (exDb, Except.error ⟨400, "Order ID mismatch."⟩) := by
  have h := completePayment_order_mismatch hmacDemo "s" exDb "p1" exBodyWrongOrder
    exPayment exBooking (by decide) (by decide) (by decide) (by decide)
    (by decide) (by decide) (by decide) (by decide) (by decide)
  exact h

/-- C3: a supplied signature that does not match the recomputed one marks
the Payment FAILED and fails with the invalid-signature error, slots and
bookings untouched; FAILED is terminal: every subsequent `completePayment`
call on that payment (in particular one supplying the correct signature)
fails the terminal-state guard — status neither PENDING nor COMPLETED —
with no further state change, so the payment is never completed and the
slot never booked. -/
theorem completePayment_invalid_signature_terminal
    (hm : String → String → String) (secret : String) (db : DB) (pid : String)
    (body : CompleteBody) (payment : Payment) (booking : Booking)
    (hpid : ¬ pid = "")
    (h1 : ¬ body.razorpayOrderId = "") (h2 : ¬ body.razorpayPaymentId = "")
    (h3 : ¬ body.razorpaySignature = "")
    (hfind : findPayment db pid = some payment)
    (hPend : payment.paymentStatus = PaymentStatus.PENDING)
    (hbk : findBooking db payment.bookingId = some booking)
    (hsl : ¬ booking.slotId = "")
    (hord : payment.razorpayOrderId = some body.razorpayOrderId)
    (hsig : ¬ hm secret (body.razorpayOrderId ++ "|" ++ body.razorpayPaymentId) =
        body.razorpaySignature) :
    completePayment hm secret db pid body =
      (markPaymentFailed db pid, Except.error ⟨400, "Invalid payment signature."⟩) ∧
    findPayment (markPaymentFailed db pid) pid =
      some { payment with paymentStatus := PaymentStatus.FAILED } ∧
    (markPaymentFailed db pid).slots = db.slots ∧
    (markPaymentFailed db pid).bookings = db.bookings ∧
    ∀ body2 : CompleteBody, ¬ body2.razorpayOrderId = "" →
      ¬ body2.razorpayPaymentId = "" → ¬ body2.razorpaySignature = "" →
      completePayment hm secret (markPaymentFailed db pid) pid body2 =
        (markPaymentFailed db pid,
         Except.error ⟨400, "Payment cannot be completed in its current state."⟩) := by
  have hfind2 : findPayment (markPaymentFailed db pid) pid =
      some { payment with paymentStatus := PaymentStatus.FAILED } :=
    find?_map_update (fun p : Payment => p.id)
      (fun p => { p with paymentStatus := PaymentStatus.FAILED })
      (fun a => rfl) pid db.payments payment hfind
  have hbk2 : findBooking (markPaymentFailed db pid) payment.bookingId = some booking := hbk
  refine ⟨?_, hfind2, rfl, rfl, ?_⟩
  · simp [completePayment, hfind, hbk, hpid, h1, h2, h3, hsl, hPend, hord, hsig]
  · intro body2 g1 g2 g3
    simp [completePayment, hfind2, hbk2, hpid, g1, g2, g3, hsl]

/-- Witness for C3: the tampered signature on the concrete store marks the
payment FAILED, and the subsequent callback with the genuinely correct
signature still fails the terminal-state guard. -/
theorem completePayment_invalid_signature_terminal_witness :
    completePayment hmacDemo "k" exDb "p1" exBodyBadSig =
      (markPaymentFailed exDb "p1", Except.error ⟨400, "Invalid payment signature."⟩) ∧
    completePayment hmacDemo "k" (markPaymentFailed exDb "p1") "p1" exBodyOk =
      (markPaymentFailed exDb "p1",
       Except.error ⟨400, "Payment cannot be completed in its current state."⟩) := by
  have h := completePayment_invalid_signature_terminal hmacDemo "k" exDb "p1" exBodyBadSig
    exPayment exBooking (by decide) (by decide) (by decide) (by decide)
    (by decide) (by decide) (by decide) (by decide) (by decide) (by decide)
  exact ⟨h.1, h.2.2.2.2 exBodyOk (by decide) (by decide) (by decide)⟩

/-- C5: on a PENDING payment whose stored order id matches the supplied
one (and whose booking and slot links are intact), `completePayment`
proceeds to the commit step if and only if the supplied signature equals
the HMAC — an uninterpreted pure deterministic function `hm` of the shared
secret — of the stored order id, `|`, and the supplied payment id; on a
mismatch it fails with the invalid-signature error instead. -/
theorem completePayment_signature_gate
    (hm : String → String → String) (secret : String) (db : DB) (pid : String)
    (body : CompleteBody) (payment : Payment) (booking : Booking)
    (slot : AdvertisementSlot)
    (hpid : ¬ pid = "")
    (h1 : ¬ body.razorpayOrderId = "") (h2 : ¬ body.razorpayPaymentId = "")
    (h3 : ¬ body.razorpaySignature = "")
    (hfind : findPayment db pid = some payment)
    (hPend : payment.paymentStatus = PaymentStatus.PENDING)
    (hbk : findBooking db payment.bookingId = some booking)
    (hsl : ¬ booking.slotId = "")
    (hord : payment.razorpayOrderId = some body.razorpayOrderId)
    (hslot : findSlot db booking.slotId = some slot) :
    (succeeded (completePayment hm secret db pid body).2 = true ↔
      body.razorpaySignature =
        hm secret (payment.razorpayOrderId.getD "null" ++ "|" ++ body.razorpayPaymentId)) ∧
    (¬ body.razorpaySignature =
        hm secret (payment.razorpayOrderId.getD "null" ++ "|" ++ body.razorpayPaymentId) →
      (completePayment hm secret db pid body).2 =
        Except.error ⟨400, "Invalid payment signature."⟩) := by
  have hex : paymentExists db pid = true :=
    any_of_find? (fun p : Payment => p.id == pid) db.payments payment hfind
  have hslx : slotExists db booking.slotId = true :=
    any_of_find? (fun s : AdvertisementSlot => s.id == booking.slotId) db.slots slot hslot
  by_cases hs : hm secret (body.razorpayOrderId ++ "|" ++ body.razorpayPaymentId) =
      body.razorpaySignature
  · constructor
    · simp [completePayment, hfind, hbk, hpid, h1, h2, h3, hsl, hPend, hord, hs,
            commitTransaction, hex, hslx, succeeded]
    · intro hneg
      exact absurd (by simp [hord]; exact hs.symm) hneg
  · constructor
    · simp only [completePayment]
      simp [hfind, hbk, hpid, h1, h2, h3, hsl, hPend, hord, hs, succeeded]
      intro hcontra
      exact absurd (by simpa [hord] using hcontra.symm) hs
    · intro _
      simp [completePayment, hfind, hbk, hpid, h1, h2, h3, hsl, hPend, hord, hs]

/-- Witness for C5: on the concrete store the correct signature commits
(outcome is a success) and the iff instantiates. -/
theorem completePayment_signature_gate_witness :
    (succeeded (completePayment hmacDemo "k" exDb "p1" exBodyOk).2 = true ↔
      exBodyOk.razorpaySignature =
        hmacDemo "k" (exPayment.razorpayOrderId.getD "null" ++ "|" ++
          exBodyOk.razorpayPaymentId)) ∧
    (¬ exBodyOk.razorpaySignature =
        hmacDemo "k" (exPayment.razorpayOrderId.getD "null" ++ "|" ++
          exBodyOk.razorpayPaymentId) →
      (completePayment hmacDemo "k" exDb "p1" exBodyOk).2 =
        Except.error ⟨400, "Invalid payment signature."⟩) := by
  have h := completePayment_signature_gate hmacDemo "k" exDb "p1" exBodyOk
    exPayment exBooking exSlot (by decide) (by decide) (by decide) (by decide)
    (by decide) (by decide) (by decide) (by decide) (by decide) (by decide)
  exact h

/-- C1: `completePayment` is idempotent for a successfully completed
payment: with identical valid arguments on a payment that starts PENDING
(matching order id, correct signature, intact booking/slot links, slot
AVAILABLE), the first call succeeds and moves the slot from AVAILABLE to
BOOKED; the second call on the resulting store sees the COMPLETED status,
performs no state change (it returns the same store) and succeeds
immediately; both success payloads carry the same bookingId and slotId. -/
theorem completePayment_idempotent
    (hm : String → String → String) (secret : String) (db : DB) (pid : String)
    (body : CompleteBody) (payment : Payment) (booking : Booking)
    (slot : AdvertisementSlot)
    (hpid : ¬ pid = "")
    (h1 : ¬ body.razorpayOrderId = "") (h2 : ¬ body.razorpayPaymentId = "")
    (h3 : ¬ body.razorpaySignature = "")
    (hfind : findPayment db pid = some payment)
    (hPend : payment.paymentStatus = PaymentStatus.PENDING)
    (hbk : findBooking db payment.bookingId = some booking)
    (hsl : ¬ booking.slotId = "")
    (hord : payment.razorpayOrderId = some body.razorpayOrderId)
    (hslot : findSlot db booking.slotId = some slot)
    (hav : slot.availabilityStatus = SlotStatus.AVAILABLE)
    (hsig : hm secret (body.razorpayOrderId ++ "|" ++ body.razorpayPaymentId) =
        body.razorpaySignature) :
    (completePayment hm secret db pid body).2 =
      Except.ok ⟨"Payment verified successfully. Slot booked. Awaiting admin approval for booking.",
                 payment.bookingId, booking.slotId⟩ ∧
    findSlot (completePayment hm secret db pid body).1 booking.slotId =
      some { slot with availabilityStatus := SlotStatus.BOOKED } ∧
    completePayment hm secret (completePayment hm secret db pid body).1 pid body =
      ((completePayment hm secret db pid body).1,
       Except.ok ⟨"Payment already verified and completed.",
                  payment.bookingId, booking.slotId⟩) := by
  have hex : paymentExists db pid = true :=
    any_of_find? (fun p : Payment => p.id == pid) db.payments payment hfind
  have hslx : slotExists db booking.slotId = true :=
    any_of_find? (fun s : AdvertisementSlot => s.id == booking.slotId) db.slots slot hslot
  have hcp : completePayment hm secret db pid body =
      ({ db with
          payments := db.payments.map (fun p =>
            if p.id = pid then
              paymentCommitted p body.razorpayPaymentId body.razorpaySignature else p),
          slots := db.slots.map (fun s =>
            if s.id = booking.slotId then
              { s with availabilityStatus := SlotStatus.BOOKED } else s) },
       Except.ok ⟨"Payment verified successfully. Slot booked. Awaiting admin approval for booking.",
                  payment.bookingId, booking.slotId⟩) := by
    simp [completePayment, hfind, hbk, hpid, h1, h2, h3, hsl, hPend, hord, hsig,
          commitTransaction, hex, hslx]
  rw [hcp]
  refine ⟨rfl, ?_, ?_⟩
  · exact find?_map_update (fun s : AdvertisementSlot => s.id)
      (fun s => { s with availabilityStatus := SlotStatus.BOOKED })
      (fun a => rfl) booking.slotId db.slots slot hslot
  · have hfind1 : findPayment (completePayment hm secret db pid body).1 pid =
        some (paymentCommitted payment body.razorpayPaymentId body.razorpaySignature) := by
      rw [hcp]
      exact find?_map_update (fun p : Payment => p.id)
        (fun p => paymentCommitted p body.razorpayPaymentId body.razorpaySignature)
        (fun a => rfl) pid db.payments payment hfind
    rw [hcp] at hfind1
    have hbk1 : findBooking
        { db with
          payments := db.payments.map (fun p =>
            if p.id = pid then
              paymentCommitted p body.razorpayPaymentId body.razorpaySignature else p),
          slots := db.slots.map (fun s =>
            if s.id = booking.slotId then
              { s with availabilityStatus := SlotStatus.BOOKED } else s) }
        payment.bookingId = some booking := hbk
    simp only [paymentCommitted] at hfind1 hbk1
    simp [completePayment, hfind1, hbk1, hpid, h1, h2, h3, hsl, paymentCommitted]

/-- Witness for C1: the concrete valid callback completes the concrete
pending payment, books the slot, and the identical second call is a no-op
success with the same payload. -/
theorem completePayment_idempotent_witness :
    (completePayment hmacDemo "k" exDb "p1" exBodyOk).2 =
      Except.ok ⟨"Payment verified successfully. Slot booked. Awaiting admin approval for booking.",
                 "b1", "s1"⟩ ∧
    findSlot (completePayment hmacDemo "k" exDb "p1" exBodyOk).1 "s1" =
      some { exSlot with availabilityStatus := SlotStatus.BOOKED } ∧
    completePayment hmacDemo "k" (completePayment hmacDemo "k" exDb "p1" exBodyOk).1 "p1" exBodyOk =
      ((completePayment hmacDemo "k" exDb "p1" exBodyOk).1,
       Except.ok ⟨"Payment already verified and completed.", "b1", "s1"⟩) := by
  have h := completePayment_idempotent hmacDemo "k" exDb "p1" exBodyOk
    exPayment exBooking exSlot (by decide) (by decide) (by decide) (by decide)
    (by decide) (by decide) (by decide) (by decide) (by decide) (by decide)
    (by decide) (by decide)
  exact h

/-- C4: when the signature check passes on a PENDING payment, the commit
updates, in one all-or-nothing transaction, exactly the payment record
(status COMPLETED, supplied external payment id and signature recorded,
every other field kept by `paymentCommitted`) and the referenced slot
record (status BOOKED): stations and bookings are untouched (so the
booking keeps its PENDING status), every other payment and slot record is
still present unchanged, and no record is created or deleted. -/
theorem completePayment_commit_frame
    (hm : String → String → String) (secret : String) (db : DB) (pid : String)
    (body : CompleteBody) (payment : Payment) (booking : Booking)
    (slot : AdvertisementSlot)
    (hpid : ¬ pid = "")
    (h1 : ¬ body.razorpayOrderId = "") (h2 : ¬ body.razorpayPaymentId = "")
    (h3 : ¬ body.razorpaySignature = "")
    (hfind : findPayment db pid = some payment)
    (hPend : payment.paymentStatus = PaymentStatus.PENDING)
    (hbk : findBooking db payment.bookingId = some booking)
    (hsl : ¬ booking.slotId = "")
    (hbstat : booking.bookingStatus = BookingStatus.PENDING)
    (hord : payment.razorpayOrderId = some body.razorpayOrderId)
    (hslot : findSlot db booking.slotId = some slot)
    (hsig : hm secret (body.razorpayOrderId ++ "|" ++ body.razorpayPaymentId) =
        body.razorpaySignature) :
    (completePayment hm secret db pid body).2 =
      Except.ok ⟨"Payment verified successfully. Slot booked. Awaiting admin approval for booking.",
                 payment.bookingId, booking.slotId⟩ ∧
    (completePayment hm secret db pid body).1.stations = db.stations ∧
    (completePayment hm secret db pid body).1.bookings = db.bookings ∧
    findBooking (completePayment hm secret db pid body).1 payment.bookingId = some booking ∧
    findPayment (completePayment hm secret db pid body).1 pid =
      some (paymentCommitted payment body.razorpayPaymentId body.razorpaySignature) ∧
    findSlot (completePayment hm secret db pid body).1 booking.slotId =
      some { slot with availabilityStatus := SlotStatus.BOOKED } ∧
    (∀ q ∈ db.payments, ¬ q.id = pid → q ∈ (completePayment hm secret db pid body).1.payments) ∧
    (∀ s ∈ db.slots, ¬ s.id = booking.slotId →
      s ∈ (completePayment hm secret db pid body).1.slots) ∧
    (completePayment hm secret db pid body).1.payments.length = db.payments.length ∧
    (completePayment hm secret db pid body).1.slots.length = db.slots.length := by
  have hex : paymentExists db pid = true :=
    any_of_find? (fun p : Payment => p.id == pid) db.payments payment hfind
  have hslx : slotExists db booking.slotId = true :=
    any_of_find? (fun s : AdvertisementSlot => s.id == booking.slotId) db.slots slot hslot
  have hcp : completePayment hm secret db pid body =
      ({ db with
          payments := db.payments.map (fun p =>
            if p.id = pid then
              paymentCommitted p body.razorpayPaymentId body.razorpaySignature else p),
          slots := db.slots.map (fun s =>
            if s.id = booking.slotId then
              { s with availabilityStatus := SlotStatus.BOOKED } else s) },
       Except.ok ⟨"Payment verified successfully. Slot booked. Awaiting admin approval for booking.",
                  payment.bookingId, booking.slotId⟩) := by
    simp [completePayment, hfind, hbk, hpid, h1, h2, h3, hsl, hPend, hord, hsig,
          commitTransaction, hex, hslx]
  rw [hcp]
  refine ⟨rfl, rfl, rfl, hbk, ?_, ?_, ?_, ?_, by simp, by simp⟩
  · exact find?_map_update (fun p : Payment => p.id)
      (fun p => paymentCommitted p body.razorpayPaymentId body.razorpaySignature)
      (fun a => rfl) pid db.payments payment hfind
  · exact find?_map_update (fun s : AdvertisementSlot => s.id)
      (fun s => { s with availabilityStatus := SlotStatus.BOOKED })
      (fun a => rfl) booking.slotId db.slots slot hslot
  · intro q hq hne
    exact mem_map_update_of_ne (fun p : Payment => p.id)
      (fun p => paymentCommitted p body.razorpayPaymentId body.razorpaySignature)
      pid db.payments q hq hne
  · intro s hs hne
    exact mem_map_update_of_ne (fun s : AdvertisementSlot => s.id)
      (fun s => { s with availabilityStatus := SlotStatus.BOOKED })
      booking.slotId db.slots s hs hne

/-- Witness for C4 at the concrete store: the commit succeeds, bookings
are untouched, and the payment and slot records take exactly the recorded
update. -/
theorem completePayment_commit_frame_witness :
    (completePayment hmacDemo "k" exDb "p1" exBodyOk).2 =
      Except.ok ⟨"Payment verified successfully. Slot booked. Awaiting admin approval for booking.",
                 "b1", "s1"⟩ ∧
    (completePayment hmacDemo "k" exDb "p1" exBodyOk).1.bookings = exDb.bookings ∧
    findPayment (completePayment hmacDemo "k" exDb "p1" exBodyOk).1 "p1" =
      some (paymentCommitted exPayment exBodyOk.razorpayPaymentId exBodyOk.razorpaySignature) ∧
    findSlot (completePayment hmacDemo "k" exDb "p1" exBodyOk).1 "s1" =
      some { exSlot with availabilityStatus := SlotStatus.BOOKED } := by
  have h := completePayment_commit_frame hmacDemo "k" exDb "p1" exBodyOk
    exPayment exBooking exSlot (by decide) (by decide) (by decide) (by decide)
    (by decide) (by decide) (by decide) (by decide) (by decide) (by decide)
    (by decide) (by decide)
  exact ⟨h.1, h.2.2.1, h.2.2.2.2.1, h.2.2.2.2.2.1⟩

/-- C2 counterexample: the transaction of `completePayment` is not
conditioned on the payment still being PENDING.  On the concrete store in
which the payment is already COMPLETED (with the ids of a first commit
recorded), the commit succeeds again and overwrites the stored external
payment id and signature — a second successful commit of the
COMPLETED/BOOKED pair, not prevented by any compare-and-swap on status. -/
theorem commitTransaction_no_cas_counterexample :
    ¬ exPaymentDone.paymentStatus = PaymentStatus.PENDING ∧
    commitTransaction exDbDone "p1" "s1" "rpSECOND" "sigSECOND" =
      some { exDbDone with
        payments := [paymentCommitted exPaymentDone "rpSECOND" "sigSECOND"],
        slots := [{ exSlot with availabilityStatus := SlotStatus.BOOKED }] } ∧
    ¬ (paymentCommitted exPaymentDone "rpSECOND" "sigSECOND").razorpayPaymentId =
      exPaymentDone.razorpayPaymentId := by
  refine ⟨by decide, by decide, by decide⟩

/-- C2 amended: the atomic commit of `completePayment` (the
`prisma.$transaction` setting Payment COMPLETED and Slot BOOKED) selects
both records by id alone, with no condition on the payment's current
status: whenever the payment and the slot exist, the commit succeeds —
whatever the payment's status — and rewrites the payment to COMPLETED with
the supplied external id and signature.  It is a blind update, not a
compare-and-swap on status; the only protection against duplicate
completion is the status pre-check `completePayment` performs before the
transaction, which a concurrent duplicate that passed the load phase would
not repeat. -/
theorem commitTransaction_blind_update
    (db : DB) (pid sid rp sig : String) (payment : Payment)
    (hfind : findPayment db pid = some payment)
    (hslx : slotExists db sid = true) :
    ∃ db2, commitTransaction db pid sid rp sig = some db2 ∧
      findPayment db2 pid = some (paymentCommitted payment rp sig) := by
  have hex : paymentExists db pid = true :=
    any_of_find? (fun p : Payment => p.id == pid) db.payments payment hfind
  refine ⟨{ db with
      payments := db.payments.map (fun p => if p.id = pid then paymentCommitted p rp sig else p),
      slots := db.slots.map (fun s =>
        if s.id = sid then { s with availabilityStatus := SlotStatus.BOOKED } else s) },
    by simp [commitTransaction, hex, hslx], ?_⟩
  exact find?_map_update (fun p : Payment => p.id)
    (fun p => paymentCommitted p rp sig) (fun a => rfl) pid db.payments payment hfind

/-- Witness for the amended C2, applied deliberately at the store whose
payment is already COMPLETED: the commit still succeeds there. -/
theorem commitTransaction_blind_update_witness :
    ∃ db2, commitTransaction exDbDone "p1" "s1" "rpSECOND" "sigSECOND" = some db2 ∧
      findPayment db2 "p1" = some (paymentCommitted exPaymentDone "rpSECOND" "sigSECOND") := by
  exact commitTransaction_blind_update exDbDone "p1" "s1" "rpSECOND" "sigSECOND"
    exPaymentDone (by decide) (by decide)

/-- C9: deleting a slot first checks existence (NotFound otherwise), then
counts bookings referencing it; a positive count is refused with Conflict
and the store is unchanged; with zero referencing bookings the slot record
is deleted (and nothing else is touched); and whenever the store changed
at all, the referencing-bookings count was zero. -/
theorem removeSlot_zero_bookings_guard (db : DB) (id : String) :
    (findSlot db id = none →
      removeSlot db id = (db, Except.error ⟨404, "Advertisement Slot not found."⟩)) ∧
    (∀ slot, findSlot db id = some slot → 0 < relatedBookingsCount db id →
      removeSlot db id =
        (db, Except.error ⟨409, "Cannot delete this slot. It has associated bookings."⟩)) ∧
    (∀ slot, findSlot db id = some slot → relatedBookingsCount db id = 0 →
      (removeSlot db id).2 = Except.ok slot ∧
      findSlot (removeSlot db id).1 id = none ∧
      (removeSlot db id).1.bookings = db.bookings ∧
      (removeSlot db id).1.payments = db.payments ∧
      (removeSlot db id).1.stations = db.stations ∧
      ∀ s ∈ db.slots, ¬ s.id = id → s ∈ (removeSlot db id).1.slots) ∧
    (¬ (removeSlot db id).1 = db → relatedBookingsCount db id = 0) := by
  refine ⟨?_, ?_, ?_, ?_⟩
  · intro hf
    simp [removeSlot, hf]
  · intro slot hf hc
    simp [removeSlot, hf, hc]
  · intro slot hf hc
    have hr : removeSlot db id =
        ({ db with slots := db.slots.filter (fun s => ¬ s.id = id) }, Except.ok slot) := by
      simp [removeSlot, hf, hc]
    rw [hr]
    refine ⟨rfl, ?_, rfl, rfl, rfl, ?_⟩
    · exact find?_filter_out (fun s : AdvertisementSlot => s.id) id db.slots
    · intro s hs hne
      exact mem_filter_out_of_ne (fun s : AdvertisementSlot => s.id) id db.slots s hs hne
  · intro hne
    by_cases h0 : relatedBookingsCount db id = 0
    · exact h0
    · exfalso
      apply hne
      cases hf : findSlot db id with
      | none => simp [removeSlot, hf]
      | some slot => simp [removeSlot, hf, Nat.pos_of_ne_zero h0]

/-- Witness for C9 at two concrete stores: with one referencing booking
the deletion is refused with 409 and nothing changes; with none the slot
is deleted. -/
theorem removeSlot_zero_bookings_guard_witness :
    removeSlot exDb "s1" =
      (exDb, Except.error ⟨409, "Cannot delete this slot. It has associated bookings."⟩) ∧
    (removeSlot exDbFresh "s1").2 = Except.ok exSlot ∧
    findSlot (removeSlot exDbFresh "s1").1 "s1" = none := by
  have h1 := (removeSlot_zero_bookings_guard exDb "s1").2.1 exSlot (by decide) (by decide)
  have h2 := (removeSlot_zero_bookings_guard exDbFresh "s1").2.2.1 exSlot (by decide) (by decide)
  exact ⟨h1, h2.1, h2.2.1⟩

/-- C7: `createPayment` converts the major-unit amount to minor units by
multiplying by 100 and rounding half up (the floor of the product plus one
half); a non-positive amount, or one whose converted result is non-positive,
fails with the invalid-amount error immediately — the result is the same
constant pair whatever the gateway and mail functions, so no gateway call
is made and no Payment row is created (the store is returned unchanged);
on the success path the appended Payment row carries exactly the converted
amount. -/
theorem createPayment_amount_conversion
    (co : Int → String → String → Except HttpError OrderResult)
    (mail : String → String → Rat → String → Except HttpError Unit)
    (npid srand : String) (db : DB) (bookingId userId : String)
    (q : Rat) (tid : String) :
    (q ≤ 0 → createPayment co mail npid srand db bookingId userId q tid =
      (db, Except.error ⟨400, "Invalid payment amount provided."⟩)) ∧
    (0 < q → jsRound (q * 100) ≤ 0 →
      createPayment co mail npid srand db bookingId userId q tid =
        (db, Except.error ⟨400, "Amount must be positive."⟩)) ∧
    (∀ (booking : Booking) (station : StationRec) (order : OrderResult),
      0 < q → 0 < jsRound (q * 100) →
      findBooking db bookingId = some booking →
      booking.bookingStatus = BookingStatus.PENDING →
      db.stations.find? (fun st => st.id == booking.stationId) = some station →
      (∀ a b c, co a b c = Except.ok order) →
      db.payments.any (fun p =>
        p.bookingId == bookingId || p.razorpayOrderId == some order.id) = false →
      (∀ a b c d, mail a b c d = Except.ok ()) →
      (createPayment co mail npid srand db bookingId userId q tid).1.payments =
        db.payments ++
          [{ id := npid, bookingId := bookingId, userId := userId,
             amountInPaise := (q * 100 + 1/2).floor, currency := order.currency,
             paymentStatus := PaymentStatus.PENDING, transactionId := tid,
             razorpayOrderId := some order.id, razorpayPaymentId := none,
             razorpaySignature := none }]) := by
  refine ⟨?_, ?_, ?_⟩
  · intro h
    simp [createPayment, h]
  · intro hq hj
    have h1 : ¬ q ≤ 0 := not_le.mpr hq
    simp [createPayment, h1, hj]
  · intro booking station order hq hj hbk hbstat hstf hco hcon hmail
    have h1 : ¬ q ≤ 0 := not_le.mpr hq
    have h2 : ¬ jsRound (q * 100) ≤ 0 := not_le.mpr hj
    simp only [jsRound, one_div] at h2
    simp [createPayment, h1, h2, hbk, hbstat, hstf, hco, hcon, hmail, jsRound]

/-- Witness for C7: a negative amount and a sub-paise amount fail without
touching the store, and 199.995 major units convert to the 20000-paise
payment row on the success path. -/
theorem createPayment_amount_conversion_witness :
    createPayment coDemo mailDemo "pNew" "r4nd" exDbNoPay "b1" "u1" (-1 : Rat) "t1" =
      (exDbNoPay, Except.error ⟨400, "Invalid payment amount provided."⟩) ∧
    createPayment coDemo mailDemo "pNew" "r4nd" exDbNoPay "b1" "u1" ((1 : Rat)/1000) "t1" =
      (exDbNoPay, Except.error ⟨400, "Amount must be positive."⟩) ∧
    (createPayment coDemo mailDemo "pNew" "r4nd" exDbNoPay "b1" "u1"
        ((39999 : Rat)/200) "t1").1.payments =
      exDbNoPay.payments ++
        [{ id := "pNew", bookingId := "b1", userId := "u1",
           amountInPaise := 20000, currency := "INR",
           paymentStatus := PaymentStatus.PENDING, transactionId := "t1",
           razorpayOrderId := some "oNew", razorpayPaymentId := none,
           razorpaySignature := none }] := by
  have e1 : jsRound ((1 : Rat)/1000 * 100) = 0 := by
    rw [show jsRound ((1 : Rat)/1000 * 100) = ⌊(1 : Rat)/1000 * 100 + 1/2⌋ from rfl,
        show ((1 : Rat)/1000 * 100 + 1/2) = (3/5 : Rat) by norm_num]
    exact Int.floor_eq_zero_iff.mpr (by constructor <;> norm_num)
  have e2 : jsRound ((39999 : Rat)/200 * 100) = 20000 := by
    rw [show jsRound ((39999 : Rat)/200 * 100) = ⌊(39999 : Rat)/200 * 100 + 1/2⌋ from rfl,
        show ((39999 : Rat)/200 * 100 + 1/2) = (((20000 : Int) : Rat)) by norm_num]
    exact Int.floor_intCast 20000
  have hneg := (createPayment_amount_conversion coDemo mailDemo "pNew" "r4nd" exDbNoPay
    "b1" "u1" (-1 : Rat) "t1").1 (by norm_num)
  have hsub := (createPayment_amount_conversion coDemo mailDemo "pNew" "r4nd" exDbNoPay
    "b1" "u1" ((1 : Rat)/1000) "t1").2.1 (by norm_num) (le_of_eq e1)
  have hok := (createPayment_amount_conversion coDemo mailDemo "pNew" "r4nd" exDbNoPay
    "b1" "u1" ((39999 : Rat)/200) "t1").2.2 exBooking exStation
    { id := "oNew", amount := 20000, currency := "INR" }
    (by norm_num) (by rw [e2]; norm_num) (by decide) (by decide) (by decide)
    (fun a b c => rfl) (by decide) (fun a b c d => rfl)
  have hfl : (((39999 : Rat)/200) * 100 + 1/2).floor = (20000 : Int) := e2
  rw [hfl] at hok
  exact ⟨hneg, hsub, hok⟩

/-- C6: at most one Booking ever references a slot.  The store-level
uniqueness constraint on `Booking.slotId` (the `@unique` attribute in the
Prisma schema, enforced by the store at insert time) is preserved by every
`createBooking`; and of two inserts referencing the same fresh slot,
exactly the first succeeds while the second is rejected with 409 Conflict,
leaving exactly one booking referencing the slot. -/
theorem createBooking_slot_unique
    (db : DB) (sid stid rjid u1 u2 id1 id2 : String)
    (hslot : db.slots.any (fun s => s.id == sid && s.stationId == stid && s.rjId == rjid) = true)
    (hfresh : ∀ b ∈ db.bookings, ¬ b.slotId = sid) :
    (∀ (d : DB) (nid uid st rj sl : String), bookingSlotUnique d.bookings →
        bookingSlotUnique (createBooking nid d uid st rj sl).1.bookings) ∧
    ∃ b1 : Booking,
      createBooking id1 db u1 stid rjid sid =
        ({ db with bookings := db.bookings ++ [b1] }, Except.ok b1) ∧
      b1.slotId = sid ∧ b1.bookingStatus = BookingStatus.PENDING ∧
      createBooking id2 { db with bookings := db.bookings ++ [b1] } u2 stid rjid sid =
        ({ db with bookings := db.bookings ++ [b1] },
         Except.error ⟨409, "Slot already has a booking."⟩) ∧
      ((db.bookings ++ [b1]).filter (fun b => b.slotId == sid)).length = 1 := by
  constructor
  · intro d nid uid st rj sl hu
    by_cases hA : (d.slots.any (fun s => s.id == sl && s.stationId == st && s.rjId == rj)) = true
    · by_cases hB : (d.bookings.any (fun b => b.slotId == sl)) = true
      · simpa [createBooking, hA, hB] using hu
      · have hB' : ∀ b ∈ d.bookings, ¬ b.slotId = sl := by
          have := List.any_eq_false.mp (Bool.eq_false_iff.mpr hB)
          intro b hb
          simpa using this b hb
        simp only [createBooking, hA, hB]
        simp only [if_true, if_neg, Bool.not_true, not_true_eq_false, if_false]
        unfold bookingSlotUnique at hu ⊢
        simp [hA, hB]
        rw [List.pairwise_append]
        refine ⟨hu, by simp, ?_⟩
        intro a ha b hb
        simp only [List.mem_singleton] at hb
        subst hb
        simpa using hB' a ha
    · simpa [createBooking, hA] using hu
  · have hB0 : (db.bookings.any (fun b => b.slotId == sid)) = false := by
      rw [List.any_eq_false]
      intro b hb
      simpa using hfresh b hb
    refine ⟨{ id := id1, userId := u1, stationId := stid, rjId := rjid, slotId := sid,
              bookingStatus := BookingStatus.PENDING }, ?_, rfl, rfl, ?_, ?_⟩
    · simp [createBooking, hslot, hB0]
    · have hB1 : ((db.bookings ++
          [({ id := id1, userId := u1, stationId := stid, rjId := rjid, slotId := sid,
              bookingStatus := BookingStatus.PENDING } : Booking)]).any
            (fun b => b.slotId == sid)) = true := by
        simp
      simp [createBooking, hslot, hB1]
    · rw [List.filter_append]
      have hnil : db.bookings.filter (fun b => b.slotId == sid) = [] := by
        rw [List.filter_eq_nil_iff]
        intro b hb
        simpa using hfresh b hb
      simp [hnil]

/-- Witness for C6 on a fresh concrete store: the first booking insert for
the slot succeeds and the second is rejected by the uniqueness constraint
with 409, leaving exactly one referencing booking. -/
theorem createBooking_slot_unique_witness :
    ∃ b1 : Booking,
      createBooking "bNew" exDbFresh "u1" "st1" "rj1" "s1" =
        ({ exDbFresh with bookings := exDbFresh.bookings ++ [b1] }, Except.ok b1) ∧
      b1.slotId = "s1" ∧ b1.bookingStatus = BookingStatus.PENDING ∧
      createBooking "bNew2" { exDbFresh with bookings := exDbFresh.bookings ++ [b1] }
          "u2" "st1" "rj1" "s1" =
        ({ exDbFresh with bookings := exDbFresh.bookings ++ [b1] },
         Except.error ⟨409, "Slot already has a booking."⟩) ∧
      ((exDbFresh.bookings ++ [b1]).filter (fun b => b.slotId == "s1")).length = 1 := by
  exact (createBooking_slot_unique exDbFresh "s1" "st1" "rj1" "u1" "u2" "bNew" "bNew2"
    (by decide) (by decide)).2

end RadioStation
